import Mathlib

/-!
# Verification of the thumbr video-thumbnail generator

A shallow embedding of the core pipeline of the `thumbr` repository
(`src/thumbr.py`, `src/utils.py`, `main.py`, `video_thumbnailer.py`):
the frame sampler, the layout calculator, the timestamp / duration /
file-size formatters, and the top-level `generate_thumbnail` pipeline.

Modelling conventions:
* Python `int` is modelled by `ℤ` (and by `ℕ` where the source value is a
  count that is always non-negative, such as `CAP_PROP_FRAME_COUNT`).
* Python `float` values (durations, timestamps, scaled file sizes) are
  modelled by `ℚ`; IEEE-754 rounding of the individual operations is
  idealised as exact rational arithmetic.  In particular the float
  constant `0.015` is modelled as `3/200` and `a / (w / h)` as `a*h/w`.
* Python `//` on integers is `Int.fdiv` (floor division); Python `int()`
  applied to a float truncates towards zero (`pyInt` below); Python `//`
  and `%` on floats are floored division and the corresponding
  remainder (`pyMod` below).
* Fallible code returns `Except`; the externally visible actions of the
  sampler and the pipeline (opening the decoder, seeking/probing,
  releasing the handle, saving the file) are recorded in an event trace.
-/

namespace Thumbr

/-- Python `int()` applied to a real value: truncation towards zero. -/
def pyInt (q : ℚ) : ℤ := if q < 0 then ⌈q⌉ else ⌊q⌋

/-- Python `%` on floats with a positive modulus: `a - n*⌊a/n⌋`. -/
def pyMod (a n : ℚ) : ℚ := a - n * ⌊a / n⌋

/-!
## Layout calculator

`Thumbr._calculate_dimensions` (src/thumbr.py lines 124–173).  The same
code appears inline in `video_thumbnailer.py` lines 148–172.
-/

/-- The dictionary returned by `Thumbr._calculate_dimensions`. -/
structure Dimensions where
  frame_width : ℤ
  frame_height : ℤ
  grid_width : ℤ
  grid_height : ℤ
  info_height : ℤ
  total_height : ℤ
  padding : ℤ
  spacing : ℤ
  info_font_size : ℤ
  line_spacing : ℤ
  watermark_padding : ℤ
deriving Repr, DecidableEq

/-- `Thumbr._calculate_dimensions(video_info, max_width)` from
src/thumbr.py lines 124–173.  `rows`/`cols` are `self.grid_size`,
`w`/`h` are `video_info["width"]`/`video_info["height"]`.
`frame_width = available_width // cols` is Python floor division;
`frame_height = int(frame_width / (w / h))` truncates the exact quotient
`frame_width*h/w` towards zero (`Int.tdiv`); `info_font_size =
int(grid_width * 0.015)` truncates `grid_width*3/200` towards zero. -/
def calculateDimensions (rows cols w h maxW : ℤ) : Dimensions :=
  let padding : ℤ := 30
  let spacing : ℤ := 20
  let available_width := maxW - 2 * padding - spacing * (cols - 1)
  let frame_width := Int.fdiv available_width cols
  let frame_height := Int.tdiv (frame_width * h) w
  let grid_width := frame_width * cols + spacing * (cols - 1) + 2 * padding
  let grid_height := frame_height * rows + spacing * (rows - 1)
  let info_font_size := Int.tdiv (grid_width * 3) 200
  let line_spacing := info_font_size + 5
  let info_height := line_spacing * 5 + padding * 2
  let total_height := grid_height + info_height + 2 * padding
  let watermark_padding := padding * 2
  { frame_width := frame_width
    frame_height := frame_height
    grid_width := grid_width
    grid_height := grid_height
    info_height := info_height
    total_height := total_height + watermark_padding
    padding := padding
    spacing := spacing
    info_font_size := info_font_size
    line_spacing := line_spacing
    watermark_padding := watermark_padding }

/-- Unfolded value of the `frame_width` entry of the dimensions dict. -/
theorem calculateDimensions_frame_width (rows cols w h maxW : ℤ) :
    (calculateDimensions rows cols w h maxW).frame_width
      = Int.fdiv (maxW - 2 * 30 - 20 * (cols - 1)) cols := rfl

/-- Unfolded value of the `frame_height` entry of the dimensions dict. -/
theorem calculateDimensions_frame_height (rows cols w h maxW : ℤ) :
    (calculateDimensions rows cols w h maxW).frame_height
      = Int.tdiv ((calculateDimensions rows cols w h maxW).frame_width * h) w := rfl

/-- Unfolded value of the `grid_width` entry of the dimensions dict. -/
theorem calculateDimensions_grid_width (rows cols w h maxW : ℤ) :
    (calculateDimensions rows cols w h maxW).grid_width
      = (calculateDimensions rows cols w h maxW).frame_width * cols
          + 20 * (cols - 1) + 2 * 30 := rfl

/-- Unfolded value of the `info_font_size` entry of the dimensions dict. -/
theorem calculateDimensions_info_font_size (rows cols w h maxW : ℤ) :
    (calculateDimensions rows cols w h maxW).info_font_size
      = Int.tdiv ((calculateDimensions rows cols w h maxW).grid_width * 3) 200 := rfl

/-!
## Frame sampler

`Thumbr.get_video_info` (src/thumbr.py lines 30–60) and
`Thumbr.capture_frames` (src/thumbr.py lines 62–88).  The decoder
(`cv2.VideoCapture`) is modelled by a `Video` record; the externally
visible decoder actions are recorded in an event trace.
-/

/-- Exceptions raised by the pipeline:
`sourceOpen` is `ValueError("Could not open video file: ...")`,
`emptyFrameSet` is `ValueError("No frames could be captured from the
video")`, and `zeroDivision` is the `ZeroDivisionError` that
`total_frames // (self.total_frames + 1)` raises when
`self.total_frames + 1 == 0`. -/
inductive Err where
  | sourceOpen
  | emptyFrameSet
  | zeroDivision
deriving Repr, DecidableEq

/-- Externally visible actions of the pipeline, in program order:
`openCap` is `cv2.VideoCapture(path)`, `probe pos` is
`cap.set(CAP_PROP_POS_FRAMES, pos)` followed by `cap.read()`,
`release` is `cap.release()`, and the remaining constructors mark the
rendering stages of `generate_thumbnail`, ending with
`final_image.save(output_path)`. -/
inductive Ev where
  | openCap
  | probe (pos : ℤ)
  | release
  | layout
  | renderInfo
  | annotate (k : ℕ)
  | watermark
  | save
deriving Repr, DecidableEq

/-- A video source as seen through `cv2.VideoCapture`:
whether it opens, its metadata properties, and the decode function
(`read pos` is the frame obtained by seeking to `pos` and decoding;
`none` models `ret == False`). -/
structure Video (F : Type) where
  opens : Bool
  width : ℤ
  height : ℤ
  fps : ℚ
  frameCount : ℕ
  fileSize : ℕ
  read : ℤ → Option F

/-- The dictionary returned by `Thumbr.get_video_info`
(src/thumbr.py lines 52–60); the filename entry is omitted as it plays
no role in any claim.  Invariant from line 47:
`duration = frame_count / fps if fps > 0 else 0`. -/
structure VideoInfo where
  width : ℤ
  height : ℤ
  fps : ℚ
  frameCount : ℕ
  duration : ℚ
  fileSize : ℕ

/-- `Thumbr.get_video_info(video_path)` (src/thumbr.py lines 30–60),
with its decoder-handle trace.  On the failing-open path the function
raises at line 41 without reaching `cap.release()` at line 50. -/
def getVideoInfo {F : Type} (v : Video F) : List Ev × Except Err VideoInfo :=
  if v.opens then
    ([Ev.openCap, Ev.release],
      Except.ok
        { width := v.width
          height := v.height
          fps := v.fps
          frameCount := v.frameCount
          duration := if 0 < v.fps then (v.frameCount : ℚ) / v.fps else 0
          fileSize := v.fileSize })
  else ([Ev.openCap], Except.error Err.sourceOpen)

/-- The source frame indices probed by `Thumbr.capture_frames`
(src/thumbr.py lines 76–81): `interval = total_frames //
(self.total_frames + 1)` and `frame_pos = (i + 1) * interval` for
`i in range(self.total_frames)`, where `self.total_frames =
rows * cols`. -/
def probedPositions (rows cols : ℤ) (frameCount : ℕ) : List ℤ :=
  let interval := Int.fdiv frameCount (rows * cols + 1)
  (List.range (rows * cols).toNat).map fun (i : ℕ) => ((i : ℤ) + 1) * interval

/-- `Thumbr.capture_frames(video_path)` (src/thumbr.py lines 62–88),
with its decoder-handle trace.  A frame whose decode fails (`ret ==
False`) is skipped (`filterMap`).  The open-failure path raises at line
73 without releasing; `total_frames // (self.total_frames + 1)` raises
`ZeroDivisionError` when `rows * cols + 1 == 0`, also without
releasing; otherwise the sweep runs and `cap.release()` executes before
the return at line 88. -/
def captureFrames {F : Type} (rows cols : ℤ) (v : Video F) :
    List Ev × Except Err (List F) :=
  if v.opens = false then ([Ev.openCap], Except.error Err.sourceOpen)
  else if rows * cols + 1 = 0 then ([Ev.openCap], Except.error Err.zeroDivision)
  else
    let ps := probedPositions rows cols v.frameCount
    ([Ev.openCap] ++ ps.map Ev.probe ++ [Ev.release],
      Except.ok (ps.filterMap v.read))

/-!
## Timestamp and duration formatting

The truncation pattern `hours = int(t // 3600); minutes = int((t % 3600)
// 60); seconds = int(t % 60)` is shared verbatim by
`Thumbr._process_frame_with_timestamp` (src/thumbr.py lines 214–218)
and `format_duration` (src/utils.py lines 46–60).
-/

/-- `int(t // 3600)` on a float `t`. -/
def pyHours (t : ℚ) : ℤ := pyInt ((⌊t / 3600⌋ : ℤ) : ℚ)

/-- `int((t % 3600) // 60)` on a float `t`. -/
def pyMinutes (t : ℚ) : ℤ := pyInt ((⌊pyMod t 3600 / 60⌋ : ℤ) : ℚ)

/-- `int(t % 60)` on a float `t`. -/
def pySeconds (t : ℚ) : ℤ := pyInt (pyMod t 60)

/-- Python `f"{n:02d}"` for the non-negative values used here. -/
def pad2 (n : ℤ) : String :=
  if 0 ≤ n ∧ n < 10 then "0" ++ toString n else toString n

/-- The timestamp label drawn on a tile:
`f"{hours:02d}:{minutes:02d}:{seconds:02d}"`
(src/thumbr.py lines 214–218). -/
def timestampText (t : ℚ) : String :=
  pad2 (pyHours t) ++ ":" ++ pad2 (pyMinutes t) ++ ":" ++ pad2 (pySeconds t)

/-- The timestamp labels drawn on the `M` returned frames by
`generate_thumbnail` (src/thumbr.py lines 393–404):
`frame_interval = total_duration / (self.total_frames + 1)` and the
frame at list index `idx` gets `timestamp = (idx + 1) * frame_interval`,
where `self.total_frames = N`. -/
def timestampLabels (M N : ℕ) (duration : ℚ) : List String :=
  (List.range M).map fun (k : ℕ) =>
    timestampText (((k : ℚ) + 1) * (duration / ((N : ℚ) + 1)))

/-- Spec-side renderer: a whole number of seconds in `HH:MM:SS` form. -/
def secondsToHMS (n : ℕ) : String :=
  pad2 ((n / 3600 : ℕ) : ℤ) ++ ":" ++ pad2 ((n % 3600 / 60 : ℕ) : ℤ)
    ++ ":" ++ pad2 ((n % 60 : ℕ) : ℤ)

/-- `format_duration(seconds)` from src/utils.py lines 46–60: unit
parts are accumulated left to right, each of `h`/`m` only when
positive, and `s` when positive or when no part was accumulated. -/
def format_duration (q : ℚ) : String :=
  let hours := pyHours q
  let minutes := pyMinutes q
  let secs := pySeconds q
  let parts1 : List String :=
    if 0 < hours then [toString hours ++ "h"] else []
  let parts2 : List String :=
    if 0 < minutes then parts1 ++ [toString minutes ++ "m"] else parts1
  let parts3 : List String :=
    if 0 < secs ∨ parts2 = [] then parts2 ++ [toString secs ++ "s"] else parts2
  String.intercalate " " parts3

/-- Spec-side renderer for the amended C5: render `n` whole seconds
with the hours unit present iff nonzero, the minutes unit present iff
nonzero, and the seconds unit present iff nonzero or both other units
are zero (hence `"0s"` when all are zero). -/
def formatDurationDropZero (n : ℕ) : String :=
  String.intercalate " "
    ((if 0 < n / 3600 then [toString (n / 3600) ++ "h"] else []) ++
      (if 0 < n % 3600 / 60 then [toString (n % 3600 / 60) ++ "m"] else []) ++
      (if 0 < n % 60 ∨ (n / 3600 = 0 ∧ n % 3600 / 60 = 0) then
        [toString (n % 60) ++ "s"] else []))

/-- `int()` is the identity on (casts of) integers. -/
theorem pyInt_intCast (m : ℤ) : pyInt ((m : ℤ) : ℚ) = m := by
  rw [pyInt]
  by_cases h : ((m : ℤ) : ℚ) < 0
  · rw [if_pos h, Int.ceil_intCast]
  · rw [if_neg h, Int.floor_intCast]

/-- `int()` is `floor` on non-negative values. -/
theorem pyInt_of_nonneg {q : ℚ} (h : 0 ≤ q) : pyInt q = ⌊q⌋ := by
  rw [pyInt, if_neg (not_lt.mpr h)]

/-- The float remainder by a positive modulus is non-negative. -/
theorem pyMod_nonneg (q : ℚ) {c : ℚ} (hc : 0 < c) : 0 ≤ pyMod q c := by
  rw [pyMod, sub_nonneg]
  have h1 : ((⌊q / c⌋ : ℤ) : ℚ) ≤ q / c := Int.floor_le (q / c)
  have h2 : c * ((⌊q / c⌋ : ℤ) : ℚ) ≤ c * (q / c) :=
    mul_le_mul_of_nonneg_left h1 (le_of_lt hc)
  rwa [mul_div_cancel₀ q (ne_of_gt hc)] at h2

/-- Floor of a non-negative rational divided by a positive natural,
as natural division of the floor. -/
theorem floor_div_natCast (q : ℚ) (c : ℕ) (hq : 0 ≤ q) (hc : 0 < c) :
    ⌊q / (c : ℚ)⌋ = ((⌊q⌋.toNat / c : ℕ) : ℤ) := by
  have hdiv : (0 : ℚ) ≤ q / (c : ℚ) := div_nonneg hq (by positivity)
  rw [← Int.toNat_of_nonneg (Int.floor_nonneg.mpr hdiv), Int.floor_toNat,
    Nat.floor_div_nat, Int.floor_toNat]

/-- The truncated hour/minute/second components of a non-negative
float `t` agree with the base-60 digits of `⌊t⌋` whole seconds. -/
theorem pyHMS_eq (t : ℚ) (ht : 0 ≤ t) :
    pyHours t = ((⌊t⌋.toNat / 3600 : ℕ) : ℤ) ∧
    pyMinutes t = ((⌊t⌋.toNat % 3600 / 60 : ℕ) : ℤ) ∧
    pySeconds t = ((⌊t⌋.toNat % 60 : ℕ) : ℤ) := by
  have hn : ((⌊t⌋.toNat : ℤ) : ℤ) = ⌊t⌋ := Int.toNat_of_nonneg (Int.floor_nonneg.mpr ht)
  have h3600 : ((3600 : ℕ) : ℚ) = (3600 : ℚ) := by norm_num
  have h60 : ((60 : ℕ) : ℚ) = (60 : ℚ) := by norm_num
  have hH : ⌊t / 3600⌋ = ((⌊t⌋.toNat / 3600 : ℕ) : ℤ) := by
    rw [← h3600, floor_div_natCast t 3600 ht (by norm_num)]
  have hHfloor : ⌊t / 60⌋ = ((⌊t⌋.toNat / 60 : ℕ) : ℤ) := by
    rw [← h60, floor_div_natCast t 60 ht (by norm_num)]
  refine ⟨?_, ?_, ?_⟩
  · rw [pyHours, pyInt_intCast, hH]
  · have hm0 : (0 : ℚ) ≤ pyMod t 3600 := pyMod_nonneg t (by norm_num)
    have hfloorMod : ⌊pyMod t 3600⌋ = ((⌊t⌋.toNat % 3600 : ℕ) : ℤ) := by
      have : pyMod t 3600 = t - (((3600 * ⌊t / 3600⌋ : ℤ) : ℤ) : ℚ) := by
        rw [pyMod]; push_cast; ring
      rw [this, Int.floor_sub_int, hH]
      omega
    have h5 := floor_div_natCast (pyMod t 3600) 60 hm0 (by norm_num)
    rw [pyMinutes, pyInt_intCast, ← h60, h5, hfloorMod]
    omega
  · have hs0 : (0 : ℚ) ≤ pyMod t 60 := pyMod_nonneg t (by norm_num)
    rw [pySeconds, pyInt_of_nonneg hs0]
    have : pyMod t 60 = t - (((60 * ⌊t / 60⌋ : ℤ) : ℤ) : ℚ) := by
      rw [pyMod]; push_cast; ring
    rw [this, Int.floor_sub_int, hHfloor]
    omega

/-!
## File-size formatting

`format_file_size` (src/utils.py lines 37–43).
-/

/-- Round to the nearest integer, ties to even: the rounding CPython's
`format` applies to the scaled value when rendering `f"{x:.1f}"`
(applied here to `10*x`). -/
def roundHalfEven (q : ℚ) : ℤ :=
  if q - ⌊q⌋ = 1 / 2 then (if ⌊q⌋ % 2 = 0 then ⌊q⌋ else ⌊q⌋ + 1)
  else ⌊q + 1 / 2⌋

/-- `f"{s:.1f}"` for the non-negative scaled sizes used here: the
value rounded to one decimal place, rendered with exactly one digit
after the point. -/
def oneDecimal (q : ℚ) : String :=
  let n := roundHalfEven (10 * q)
  toString (n / 10) ++ "." ++ toString (n % 10)

/-- The unit list `["B", "KB", "MB", "GB", "TB"]` of
`format_file_size` (src/utils.py line 39). -/
def sizeUnits : List String := ["B", "KB", "MB", "GB", "TB"]

/-- The loop of `format_file_size` (src/utils.py lines 39–43): for each
unit in turn, if the running size is below 1024 render it with that
unit, else divide by 1024 and continue; after the loop render the
(once more divided) size as `"TB"`. -/
def formatFileSizeAux : List String → ℚ → String
  | [], s => oneDecimal s ++ " TB"
  | u :: us, s =>
      if s < 1024 then oneDecimal s ++ " " ++ u
      else formatFileSizeAux us (s / 1024)

/-- `format_file_size(size_bytes)` from src/utils.py lines 37–43. -/
def format_file_size (s : ℚ) : String := formatFileSizeAux sizeUnits s

/-- One loop iteration of `format_file_size`, terminating case. -/
theorem formatFileSizeAux_step_lt (u : String) (us : List String) (s : ℚ)
    (h : s < 1024) :
    formatFileSizeAux (u :: us) s = oneDecimal s ++ " " ++ u := by
  simp only [formatFileSizeAux, if_pos h]

/-- One loop iteration of `format_file_size`, continuing case. -/
theorem formatFileSizeAux_step_ge (u : String) (us : List String) (s : ℚ)
    (h : ¬ s < 1024) :
    formatFileSizeAux (u :: us) s = formatFileSizeAux us (s / 1024) := by
  simp only [formatFileSizeAux, if_neg h]

/-- The property claimed by C6 at a given byte count: the rendered
string scales the size by the smallest unit among B, KB, MB, GB, TB for
which the scaled value is below 1024, printed with one decimal place. -/
def fileSizeClaimAt (size : ℚ) : Prop :=
  ∃ k, k < 5 ∧ (∀ j, j < k → (1024 : ℚ) ≤ size / 1024 ^ j) ∧
    size / 1024 ^ k < 1024 ∧
    format_file_size size = oneDecimal (size / 1024 ^ k) ++ " " ++ sizeUnits.getD k ""

/-!
## Top-level pipeline

`Thumbr.generate_thumbnail` (src/thumbr.py lines 327–428).
-/

/-- `Thumbr.generate_thumbnail(video_path, output_path, max_width)`
(src/thumbr.py lines 327–428) as a trace and result: `get_video_info`
(line 353), `capture_frames` (line 357), the empty-frame-set check
(lines 360–361), then `_calculate_dimensions` (line 374),
`_create_info_section` (line 378), the per-frame
`_process_frame_with_timestamp`/paste loop (lines 397–415),
`_add_watermark` (line 419) and finally `final_image.save` (line 423).
The observable value is the dimensions dict and the list of timestamp
labels drawn on the tiles; any raised exception propagates before the
save. -/
def generateThumbnail {F : Type} (rows cols maxW : ℤ) (v : Video F) :
    List Ev × Except Err (Dimensions × List String) :=
  match getVideoInfo v with
  | (t1, Except.error e) => (t1, Except.error e)
  | (t1, Except.ok info) =>
    match captureFrames rows cols v with
    | (t2, Except.error e) => (t1 ++ t2, Except.error e)
    | (t2, Except.ok frames) =>
      if frames.isEmpty then (t1 ++ t2, Except.error Err.emptyFrameSet)
      else
        (t1 ++ t2 ++ [Ev.layout, Ev.renderInfo]
            ++ (List.range frames.length).map Ev.annotate
            ++ [Ev.watermark, Ev.save],
          Except.ok
            (calculateDimensions rows cols info.width info.height maxW,
              timestampLabels frames.length (rows * cols).toNat info.duration))

/-- `filterMap` keeps every element when the function succeeds on all
of them. -/
theorem length_filterMap_of_forall_isSome {α β : Type} (f : α → Option β) :
    ∀ l : List α, (∀ a ∈ l, (f a).isSome) →
      (l.filterMap f).length = l.length := by
  intro l
  induction l with
  | nil => intro _; rfl
  | cons a l ih =>
      intro hl
      have ha : (f a).isSome := hl a (List.mem_cons_self a l)
      obtain ⟨b, hb⟩ := Option.isSome_iff_exists.mp ha
      rw [List.filterMap_cons_some hb, List.length_cons, List.length_cons,
        ih fun x hx => hl x (List.mem_cons_of_mem a hx)]

end Thumbr

/-- **C1.**  For every video with positive width and height and every grid
configuration with `rows ≥ 1`, `cols ≥ 1`, `maxCanvasWidth ≥ 1`, the plan
produced by `_calculate_dimensions` satisfies exactly
`gridWidth = frameWidth*cols + spacing*(cols-1) + 2*padding` and
`totalHeight = gridHeight + infoHeight + 2*padding + watermarkPadding`,
with `padding = 30`, `spacing = 20` and
`gridHeight = frameHeight*rows + spacing*(rows-1)`, with no rounding
drift. -/
theorem C1_layout_invariants (rows cols w h maxW : ℤ)
    (hrows : 1 ≤ rows) (hcols : 1 ≤ cols) (hw : 0 < w) (hh : 0 < h)
    (hmax : 1 ≤ maxW)
    (d : Thumbr.Dimensions)
    (hd : d = Thumbr.calculateDimensions rows cols w h maxW) :
    d.grid_width = d.frame_width * cols + d.spacing * (cols - 1) + 2 * d.padding ∧
    d.total_height = d.grid_height + d.info_height + 2 * d.padding + d.watermark_padding ∧
    d.padding = 30 ∧ d.spacing = 20 ∧
    d.grid_height = d.frame_height * rows + d.spacing * (rows - 1) := by
  subst hd
  refine ⟨rfl, ?_, rfl, rfl, rfl⟩
  simp only [Thumbr.calculateDimensions]

/-- Witness for C1 at `rows = cols = 3`, a 1920×1080 source and
`maxCanvasWidth = 1920`. -/
theorem C1_layout_invariants_witness :
    (Thumbr.calculateDimensions 3 3 1920 1080 1920).grid_width
      = (Thumbr.calculateDimensions 3 3 1920 1080 1920).frame_width * 3
        + (Thumbr.calculateDimensions 3 3 1920 1080 1920).spacing * (3 - 1)
        + 2 * (Thumbr.calculateDimensions 3 3 1920 1080 1920).padding ∧
    (Thumbr.calculateDimensions 3 3 1920 1080 1920).total_height
      = (Thumbr.calculateDimensions 3 3 1920 1080 1920).grid_height
        + (Thumbr.calculateDimensions 3 3 1920 1080 1920).info_height
        + 2 * (Thumbr.calculateDimensions 3 3 1920 1080 1920).padding
        + (Thumbr.calculateDimensions 3 3 1920 1080 1920).watermark_padding ∧
    (Thumbr.calculateDimensions 3 3 1920 1080 1920).padding = 30 ∧
    (Thumbr.calculateDimensions 3 3 1920 1080 1920).spacing = 20 ∧
    (Thumbr.calculateDimensions 3 3 1920 1080 1920).grid_height
      = (Thumbr.calculateDimensions 3 3 1920 1080 1920).frame_height * 3
        + (Thumbr.calculateDimensions 3 3 1920 1080 1920).spacing * (3 - 1) :=
  C1_layout_invariants 3 3 1920 1080 1920 (by decide) (by decide) (by decide)
    (by decide) (by decide) (Thumbr.calculateDimensions 3 3 1920 1080 1920) rfl

/-- **C2.**  For every grid with `rows, cols ≥ 1` and every source that
opens and has `frameCount ≥ rows*cols + 1`, if every probe decode
succeeds then `capture_frames` returns exactly `N = rows*cols` frames,
probing in order the source frame indices `i * (frameCount // (N+1))`
for `i = 1..N`. -/
theorem C2_sampler_exact_count {F : Type} (v : Thumbr.Video F) (rows cols : ℤ)
    (hrows : 1 ≤ rows) (hcols : 1 ≤ cols) (hopen : v.opens = true)
    (hcount : rows * cols + 1 ≤ (v.frameCount : ℤ))
    (hdecode : ∀ p ∈ Thumbr.probedPositions rows cols v.frameCount,
      (v.read p).isSome) :
    ∃ l, (Thumbr.captureFrames rows cols v).2 = Except.ok l ∧
      l.length = (rows * cols).toNat ∧
      (Thumbr.captureFrames rows cols v).1
        = [Thumbr.Ev.openCap]
            ++ (List.range' 1 (rows * cols).toNat).map
                (fun (i : ℕ) => Thumbr.Ev.probe
                  ((i : ℤ) * Int.fdiv v.frameCount (rows * cols + 1)))
            ++ [Thumbr.Ev.release] := by
  have hN : 0 < rows * cols := mul_pos (by omega) (by omega)
  have hN1 : ¬ rows * cols + 1 = 0 := by omega
  have hmaps : (List.range' 1 (rows * cols).toNat).map
        (fun (i : ℕ) => Thumbr.Ev.probe
          ((i : ℤ) * Int.fdiv v.frameCount (rows * cols + 1)))
      = (List.range (rows * cols).toNat).map
        (fun (i : ℕ) => Thumbr.Ev.probe
          (((i : ℤ) + 1) * Int.fdiv v.frameCount (rows * cols + 1))) := by
    rw [List.range'_eq_map_range, List.map_map]
    apply List.map_congr_left
    intro a _
    simp only [Function.comp_apply]
    congr 1
    push_cast
    ring
  refine ⟨(Thumbr.probedPositions rows cols v.frameCount).filterMap v.read,
    ?_, ?_, ?_⟩
  · simp [Thumbr.captureFrames, hopen, hN1]
  · rw [Thumbr.length_filterMap_of_forall_isSome v.read _ hdecode,
      Thumbr.probedPositions, List.length_map, List.length_range]
  · rw [hmaps]
    simp [Thumbr.captureFrames, hopen, hN1, Thumbr.probedPositions,
      List.map_map, Function.comp_def]

/-- Witness for C2: a 3×3 grid over an opening 300-frame source (the
10 s, 30 fps scenario) whose every probe decodes; the sampler probes
indices 30, 60, ..., 270 and returns 9 frames. -/
theorem C2_sampler_exact_count_witness :
    ∃ l, (Thumbr.captureFrames 3 3
        (Thumbr.Video.mk true 1920 1080 30 300 0 (fun p => some p)
          : Thumbr.Video ℤ)).2 = Except.ok l ∧
      l.length = ((3 : ℤ) * 3).toNat ∧
      (Thumbr.captureFrames 3 3
        (Thumbr.Video.mk true 1920 1080 30 300 0 (fun p => some p)
          : Thumbr.Video ℤ)).1
        = [Thumbr.Ev.openCap]
            ++ (List.range' 1 ((3 : ℤ) * 3).toNat).map
                (fun (i : ℕ) => Thumbr.Ev.probe
                  ((i : ℤ) * Int.fdiv ((300 : ℕ) : ℤ) ((3 : ℤ) * 3 + 1)))
            ++ [Thumbr.Ev.release] ∧
      Thumbr.probedPositions 3 3 300
        = [30, 60, 90, 120, 150, 180, 210, 240, 270] := by
  obtain ⟨l, h1, h2, h3⟩ :=
    C2_sampler_exact_count
      (Thumbr.Video.mk true 1920 1080 30 300 0 (fun p => some p))
      3 3 (by decide) (by decide) rfl (by decide) (fun p _ => rfl)
  exact ⟨l, h1, h2, h3, by decide⟩

/-- **C9.**  When the source has `frameCount ≤ rows*cols`, the sampling
interval `frameCount // (N+1)` is `0`, every probe seeks frame index
`0`, and if index 0 decodes to frame `f` the sampler returns `N`
identical copies of `f`. -/
theorem C9_degenerate_interval {F : Type} (v : Thumbr.Video F)
    (rows cols : ℤ) (f : F)
    (hrows : 1 ≤ rows) (hcols : 1 ≤ cols) (hopen : v.opens = true)
    (hcount : (v.frameCount : ℤ) ≤ rows * cols)
    (hread : v.read 0 = some f) :
    Int.fdiv v.frameCount (rows * cols + 1) = 0 ∧
    Thumbr.probedPositions rows cols v.frameCount
      = List.replicate (rows * cols).toNat 0 ∧
    (Thumbr.captureFrames rows cols v).2
      = Except.ok (List.replicate (rows * cols).toNat f) := by
  have hN : 0 < rows * cols := mul_pos (by omega) (by omega)
  have hN1 : ¬ rows * cols + 1 = 0 := by omega
  have hI : Int.fdiv v.frameCount (rows * cols + 1) = 0 := by
    rw [Int.fdiv_eq_ediv _ (by omega)]
    exact Int.ediv_eq_zero_of_lt (by positivity) (by omega)
  have hP : Thumbr.probedPositions rows cols v.frameCount
      = List.replicate (rows * cols).toNat 0 := by
    rw [Thumbr.probedPositions, hI]
    simp only [mul_zero]
    rw [List.map_const', List.length_range]
  refine ⟨hI, hP, ?_⟩
  have h2 : ¬ v.opens = false := by simp [hopen]
  rw [Thumbr.captureFrames, if_neg h2, if_neg hN1]
  simp only [hP]
  rw [List.filterMap_replicate_of_some hread]

/-- Witness for C9: a 2×2 grid over an opening 3-frame source whose
frame 0 decodes; all four probes hit index 0 and the sampler returns
four copies of frame 0. -/
theorem C9_degenerate_interval_witness :
    Int.fdiv ((3 : ℕ) : ℤ) ((2 : ℤ) * 2 + 1) = 0 ∧
    Thumbr.probedPositions 2 2 3 = List.replicate ((2 : ℤ) * 2).toNat 0 ∧
    (Thumbr.captureFrames 2 2
      (Thumbr.Video.mk true 640 480 25 3 0
        (fun p => if p = 0 then some 42 else none) : Thumbr.Video ℕ)).2
      = Except.ok (List.replicate ((2 : ℤ) * 2).toNat 42) :=
  C9_degenerate_interval
    (Thumbr.Video.mk true 640 480 25 3 0
      (fun p => if p = 0 then some 42 else none))
    2 2 42 (by decide) (by decide) rfl (by decide) (by decide)

/-- **C7, counterexample.**  The claim that the decoder handle is
released on *every* exit path fails on the source-open failure path: on
a video that does not open, both `get_video_info` and `capture_frames`
raise with no `cap.release()` in their trace. -/
theorem C7_counterexample :
    ((Thumbr.captureFrames 3 3
      (Thumbr.Video.mk false 0 0 0 0 0 (fun _ => none)
        : Thumbr.Video Unit)).2
        = Except.error Thumbr.Err.sourceOpen ∧
      Thumbr.Ev.release ∉ (Thumbr.captureFrames 3 3
      (Thumbr.Video.mk false 0 0 0 0 0 (fun _ => none)
        : Thumbr.Video Unit)).1) ∧
    ((Thumbr.getVideoInfo
      (Thumbr.Video.mk false 0 0 0 0 0 (fun _ => none)
        : Thumbr.Video Unit)).2.isOk = false ∧
      Thumbr.Ev.release ∉ (Thumbr.getVideoInfo
      (Thumbr.Video.mk false 0 0 0 0 0 (fun _ => none)
        : Thumbr.Video Unit)).1) := by
  refine ⟨⟨rfl, ?_⟩, rfl, ?_⟩ <;> decide

/-- **C7, amended.**  In both `get_video_info` and `capture_frames`,
the decoder handle is released exactly on the normally-returning paths:
`get_video_info` releases iff the source opens, and `capture_frames`
releases iff the source opens and the interval computation does not
divide by zero (`rows*cols + 1 ≠ 0`) — in particular it is released
even when probe decodes fail, and when released it is the last decoder
action.  On the open-failure path (and the division-by-zero path) the
error propagates without a release. -/
theorem C7_amended_release_iff_normal_return {F : Type} (v : Thumbr.Video F)
    (rows cols : ℤ) :
    (Thumbr.Ev.release ∈ (Thumbr.captureFrames rows cols v).1
      ↔ v.opens = true ∧ rows * cols + 1 ≠ 0) ∧
    (Thumbr.Ev.release ∈ (Thumbr.getVideoInfo v).1 ↔ v.opens = true) ∧
    (v.opens = true → rows * cols + 1 ≠ 0 →
      (Thumbr.captureFrames rows cols v).1.getLast? = some Thumbr.Ev.release) := by
  refine ⟨?_, ?_, ?_⟩
  · cases hv : v.opens with
    | false => simp [Thumbr.captureFrames, hv]
    | true =>
        by_cases hz : rows * cols + 1 = 0 <;>
          simp [Thumbr.captureFrames, hv, hz]
  · cases hv : v.opens with
    | false => simp [Thumbr.getVideoInfo, hv]
    | true => simp [Thumbr.getVideoInfo, hv]
  · intro hv hz
    have h2 : ¬ v.opens = false := by simp [hv]
    rw [Thumbr.captureFrames, if_neg h2, if_neg hz]
    show (Thumbr.Ev.openCap ::
      ((Thumbr.probedPositions rows cols v.frameCount).map Thumbr.Ev.probe
        ++ [Thumbr.Ev.release])).getLast? = some Thumbr.Ev.release
    rw [← List.cons_append, List.getLast?_concat]

/-- Witness for the amended C7: on an opening 300-frame source with a
3×3 grid, both functions do release the handle. -/
theorem C7_amended_release_iff_normal_return_witness :
    Thumbr.Ev.release ∈ (Thumbr.captureFrames 3 3
      (Thumbr.Video.mk true 1920 1080 30 300 0 (fun _ => none)
        : Thumbr.Video Unit)).1 ∧
    Thumbr.Ev.release ∈ (Thumbr.getVideoInfo
      (Thumbr.Video.mk true 1920 1080 30 300 0 (fun _ => none)
        : Thumbr.Video Unit)).1 :=
  ⟨(C7_amended_release_iff_normal_return
      (Thumbr.Video.mk true 1920 1080 30 300 0 (fun _ => none)) 3 3).1.mpr
      ⟨rfl, by decide⟩,
    (C7_amended_release_iff_normal_return
      (Thumbr.Video.mk true 1920 1080 30 300 0 (fun _ => none)
        : Thumbr.Video Unit) 3 3).2.1.mpr rfl⟩

/-- **C4, counterexample.**  The claim "for every GridConfig with
`rows ≥ 1`, `cols ≥ 1`, `maxCanvasWidth ≥ 1` and every video with
positive width and height, all eleven plan fields are positive" fails at
`rows = cols = 1`, a 100×100 source and `maxCanvasWidth = 1`: the
available width is `1 - 60 = -59`, so `frame_width = -59` is negative. -/
theorem C4_counterexample :
    (1 : ℤ) ≤ 1 ∧ (1 : ℤ) ≤ 1 ∧ (0 : ℤ) < 100 ∧ (0 : ℤ) < 100 ∧ (1 : ℤ) ≤ 1 ∧
    (Thumbr.calculateDimensions 1 1 100 100 1).frame_width = -59 ∧
    ¬ 0 < (Thumbr.calculateDimensions 1 1 100 100 1).frame_width := by
  refine ⟨le_refl _, le_refl _, by decide, by decide, le_refl _, ?_, ?_⟩ <;> decide

/-- **C4, amended.**  All eleven fields of the plan are positive
integers, provided the canvas is wide enough that each frame gets at
least 7 pixels of width (`maxCanvasWidth ≥ 2*padding + spacing*(cols-1)
+ 7*cols`) and the source aspect ratio leaves at least one pixel of
frame height (`frameWidth * height ≥ width`).  The original hypotheses
`maxCanvasWidth ≥ 1`, width, height > 0 are not sufficient:
`frame_width`, `frame_height` and `info_font_size` can reach zero or
negative values (see the counterexample). -/
theorem C4_amended_all_fields_positive (rows cols w h maxW : ℤ)
    (hrows : 1 ≤ rows) (hcols : 1 ≤ cols) (hw : 0 < w) (hh : 0 < h)
    (hmax : 2 * 30 + 20 * (cols - 1) + 7 * cols ≤ maxW)
    (hfh : w ≤ (Thumbr.calculateDimensions rows cols w h maxW).frame_width * h) :
    let d := Thumbr.calculateDimensions rows cols w h maxW
    0 < d.frame_width ∧ 0 < d.frame_height ∧ 0 < d.grid_width ∧
    0 < d.grid_height ∧ 0 < d.info_height ∧ 0 < d.total_height ∧
    0 < d.padding ∧ 0 < d.spacing ∧ 0 < d.info_font_size ∧
    0 < d.line_spacing ∧ 0 < d.watermark_padding := by
  intro d
  have hcols0 : (0 : ℤ) < cols := by omega
  -- frame_width ≥ 7
  have hfw7 : 7 ≤ d.frame_width := by
    rw [show d.frame_width = Int.fdiv (maxW - 2 * 30 - 20 * (cols - 1)) cols from rfl,
      Int.fdiv_eq_ediv _ (le_of_lt hcols0)]
    calc (7 : ℤ) = 7 * cols / cols := (Int.mul_ediv_cancel 7 (by omega)).symm
      _ ≤ (maxW - 2 * 30 - 20 * (cols - 1)) / cols :=
          Int.ediv_le_ediv hcols0 (by omega)
  -- frame_height ≥ 1
  have hfh1 : 1 ≤ d.frame_height := by
    rw [show d.frame_height = Int.tdiv (d.frame_width * h) w from rfl,
      Int.tdiv_eq_ediv (by nlinarith) (le_of_lt hw)]
    calc (1 : ℤ) = w / w := (Int.ediv_self (by omega)).symm
      _ ≤ d.frame_width * h / w := Int.ediv_le_ediv hw hfh
  -- grid_width ≥ 67
  have hgw : 67 ≤ d.grid_width := by
    rw [show d.grid_width = d.frame_width * cols + 20 * (cols - 1) + 2 * 30 from rfl]
    have h7c : 7 * cols ≤ d.frame_width * cols :=
      mul_le_mul_of_nonneg_right hfw7 (le_of_lt hcols0)
    linarith
  -- info_font_size ≥ 1
  have hifs : 1 ≤ d.info_font_size := by
    rw [show d.info_font_size = Int.tdiv (d.grid_width * 3) 200 from rfl,
      Int.tdiv_eq_ediv (by linarith) (by norm_num)]
    calc (1 : ℤ) = 201 / 200 := by decide
      _ ≤ d.grid_width * 3 / 200 := Int.ediv_le_ediv (by norm_num) (by linarith)
  -- grid_height ≥ 1
  have hgh : 1 ≤ d.grid_height := by
    rw [show d.grid_height = d.frame_height * rows + 20 * (rows - 1) from rfl]
    have h1r : 1 * rows ≤ d.frame_height * rows :=
      mul_le_mul_of_nonneg_right hfh1 (by omega)
    linarith
  have hls : 0 < d.line_spacing := by
    rw [show d.line_spacing = d.info_font_size + 5 from rfl]; linarith
  have hih : 0 < d.info_height := by
    rw [show d.info_height = d.line_spacing * 5 + 30 * 2 from rfl]; linarith
  have hth : 0 < d.total_height := by
    rw [show d.total_height
      = d.grid_height + d.info_height + 2 * 30 + 30 * 2 from rfl]
    linarith
  exact ⟨by linarith, by linarith, by linarith, by linarith, hih, hth,
    by rw [show d.padding = (30 : ℤ) from rfl]; decide,
    by rw [show d.spacing = (20 : ℤ) from rfl]; decide,
    by linarith, hls,
    by rw [show d.watermark_padding = (30 * 2 : ℤ) from rfl]; decide⟩

/-- Witness for the amended C4 at `rows = cols = 3`, a 1920×1080 source
and `maxCanvasWidth = 1920`. -/
theorem C4_amended_all_fields_positive_witness :
    let d := Thumbr.calculateDimensions 3 3 1920 1080 1920
    0 < d.frame_width ∧ 0 < d.frame_height ∧ 0 < d.grid_width ∧
    0 < d.grid_height ∧ 0 < d.info_height ∧ 0 < d.total_height ∧
    0 < d.padding ∧ 0 < d.spacing ∧ 0 < d.info_font_size ∧
    0 < d.line_spacing ∧ 0 < d.watermark_padding :=
  C4_amended_all_fields_positive 3 3 1920 1080 1920 (by decide) (by decide)
    (by decide) (by decide) (by decide) (by decide)

/-- **C3.**  For every run in which the sampler returned `M` frames, the
`k`-th returned sample (`k < M`, 0-indexed) is annotated with timestamp
`(k+1) * duration / (N+1)` seconds where `N = rows*cols`, and the
rendered `HH:MM:SS` label (truncating hours, minutes and seconds)
equals `⌊(k+1) * duration / (N+1)⌋` whole seconds in `HH:MM:SS` form. -/
theorem C3_timestamp_of_kth_sample (duration : ℚ) (N M k : ℕ)
    (hd : 0 ≤ duration) (hk : k < M) :
    (Thumbr.timestampLabels M N duration).getD k ""
      = Thumbr.secondsToHMS (⌊((k : ℚ) + 1) * duration / ((N : ℚ) + 1)⌋.toNat) := by
  have hget : (Thumbr.timestampLabels M N duration).getD k ""
      = Thumbr.timestampText (((k : ℚ) + 1) * (duration / ((N : ℚ) + 1))) := by
    rw [Thumbr.timestampLabels, List.getD_eq_getElem?_getD]
    rw [List.getElem?_map, List.getElem?_range hk]
    rfl
  set t := ((k : ℚ) + 1) * (duration / ((N : ℚ) + 1)) with htdef
  have ht : 0 ≤ t :=
    mul_nonneg (by positivity) (div_nonneg hd (by positivity))
  obtain ⟨h1, h2, h3⟩ := Thumbr.pyHMS_eq t ht
  have hassoc : ((k : ℚ) + 1) * duration / ((N : ℚ) + 1) = t :=
    mul_div_assoc _ _ _
  rw [hget, Thumbr.timestampText, h1, h2, h3, hassoc, Thumbr.secondsToHMS]

/-- Witness for C3 at the spec scenario: 10 s video, 3×3 grid (`N = 9`,
all nine frames returned), first sample. -/
theorem C3_timestamp_of_kth_sample_witness :
    0 ≤ (10 : ℚ) ∧ (0 : ℕ) < 9 ∧
    (Thumbr.timestampLabels 9 9 10).getD 0 ""
      = Thumbr.secondsToHMS (⌊(((0 : ℕ) : ℚ) + 1) * 10 / (((9 : ℕ) : ℚ) + 1)⌋.toNat) :=
  ⟨by norm_num, by norm_num,
    C3_timestamp_of_kth_sample 10 9 9 0 (by norm_num) (by norm_num)⟩

/-- **C5, counterexample.**  The claim that the duration renderer drops
only zero-valued *leading* units (so that a duration of one hour or
more always renders as `"Hh Mm Ss"`) fails at 3600 seconds:
`format_duration` (src/utils.py) drops the zero-valued minutes and
seconds units too and renders `"1h"`, not `"1h 0m 0s"`. -/
theorem C5_counterexample :
    Thumbr.format_duration 3600 = "1h" ∧
    Thumbr.format_duration 3600 ≠ "1h 0m 0s" := by
  have h1 : Thumbr.pyHours 3600 = 1 := by
    rw [Thumbr.pyHours]
    norm_num [Thumbr.pyInt]
  have h2 : Thumbr.pyMinutes 3600 = 0 := by
    rw [Thumbr.pyMinutes]
    norm_num [Thumbr.pyInt, Thumbr.pyMod]
  have h3 : Thumbr.pySeconds 3600 = 0 := by
    rw [Thumbr.pySeconds]
    norm_num [Thumbr.pyInt, Thumbr.pyMod]
  have hmain : Thumbr.format_duration 3600 = "1h" := by
    simp only [Thumbr.format_duration]
    rw [h1, h2, h3]
    decide
  exact ⟨hmain, by rw [hmain]; decide⟩

/-- **C5, amended.**  For every non-negative duration, the rendered
string equals `⌊duration⌋` whole seconds rendered with *every*
zero-valued unit dropped (not only leading ones): hours appear iff
nonzero, minutes iff nonzero, seconds iff nonzero or both other units
are zero — in particular `"1h"` for 3600 s, `"1m"` for 60 s, and
`"0s"` when all units are zero.  (The legacy renderer in
`video_thumbnailer.py` lines 193–203, unused by the `src/` pipeline,
does behave as originally claimed.) -/
theorem C5_amended_drops_all_zero_units (q : ℚ) (hq : 0 ≤ q) :
    Thumbr.format_duration q = Thumbr.formatDurationDropZero ⌊q⌋.toNat := by
  obtain ⟨h1, h2, h3⟩ := Thumbr.pyHMS_eq q hq
  have ts : ∀ m : ℕ, toString ((m : ℕ) : ℤ) = toString m := fun _ => rfl
  simp only [Thumbr.format_duration, Thumbr.formatDurationDropZero]
  rw [h1, h2, h3]
  generalize ⌊q⌋.toNat = n
  by_cases hH : 0 < n / 3600 <;>
    by_cases hM : 0 < n % 3600 / 60 <;>
    by_cases hS : 0 < n % 60
  all_goals
    have e1 : ((0 : ℤ) < (n : ℤ) / 3600) ↔ (0 < n / 3600) := by omega
    have e2 : ((0 : ℤ) < (n : ℤ) % 3600 / 60) ↔ (0 < n % 3600 / 60) := by omega
    have e3 : ((0 : ℤ) < (n : ℤ) % 60) ↔ (0 < n % 60) := by omega
    have f1 : (n / 3600 = 0) ↔ ¬ (0 < n / 3600) := by omega
    have f2 : (n % 3600 / 60 = 0) ↔ ¬ (0 < n % 3600 / 60) := by omega
    have t1 : toString ((n : ℤ) / 3600) = toString (n / 3600) := by
      rw [show ((n : ℤ) / 3600) = ((n / 3600 : ℕ) : ℤ) from by omega]
      exact ts _
    have t2 : toString ((n : ℤ) % 3600 / 60) = toString (n % 3600 / 60) := by
      rw [show ((n : ℤ) % 3600 / 60) = ((n % 3600 / 60 : ℕ) : ℤ) from by omega]
      exact ts _
    have t3 : toString ((n : ℤ) % 60) = toString (n % 60) := by
      rw [show ((n : ℤ) % 60) = ((n % 60 : ℕ) : ℤ) from by omega]
      exact ts _
    simp [e1, e2, e3, f1, f2, hH, hM, hS, t1, t2, t3]

/-- Witness for the amended C5 at 3661 seconds (= 1h 1m 1s). -/
theorem C5_amended_drops_all_zero_units_witness :
    0 ≤ (3661 : ℚ) ∧
    Thumbr.format_duration 3661
      = Thumbr.formatDurationDropZero ⌊(3661 : ℚ)⌋.toNat :=
  ⟨by norm_num, C5_amended_drops_all_zero_units 3661 (by norm_num)⟩

/-- **C6, counterexample.**  The claim that for *every* non-negative
byte count the unit is the smallest one whose scaled value is below
1024 fails at `1024^5` bytes: no unit in B..TB scales it below 1024,
and the loop falls through, dividing a sixth time and rendering
`"1.0 TB"` (the value scaled for the non-existent next unit) instead of
`"1024.0 TB"`. -/
theorem C6_counterexample :
    Thumbr.format_file_size ((1024 : ℚ) ^ 5) = "1.0 TB" ∧
    ¬ Thumbr.fileSizeClaimAt ((1024 : ℚ) ^ 5) := by
  constructor
  · norm_num [Thumbr.format_file_size, Thumbr.sizeUnits,
      Thumbr.formatFileSizeAux, Thumbr.oneDecimal, Thumbr.roundHalfEven]
    decide
  · rintro ⟨k, hk5, hmono, hlt, heq⟩
    interval_cases k <;> norm_num at hlt

/-- **C6, amended.**  For every byte count `0 ≤ size < 1024^5`, the
rendered file-size string scales by the smallest unit among B, KB, MB,
GB, TB for which the scaled value is below 1024 and prints it with one
decimal place; at `1024^5` bytes and beyond the loop falls through and
mislabels the once-more-divided value as `"TB"` (see the
counterexample). -/
theorem C6_amended_binary_prefixes (size : ℚ) (h0 : 0 ≤ size)
    (hTop : size < 1024 ^ 5) : Thumbr.fileSizeClaimAt size := by
  have key : ∀ j : ℕ, ((1024 : ℚ) ≤ size / 1024 ^ j ↔ 1024 ^ (j + 1) ≤ size) := by
    intro j
    rw [le_div_iff₀ (by positivity), pow_succ, mul_comm]
  have key2 : ∀ j : ℕ, (size / 1024 ^ j < 1024 ↔ size < 1024 ^ (j + 1)) := by
    intro j
    rw [div_lt_iff₀ (by positivity), pow_succ, mul_comm]
  have mono : ∀ k : ℕ, (1024 : ℚ) ^ k ≤ size →
      ∀ j, j < k → (1024 : ℚ) ≤ size / 1024 ^ j := by
    intro k hk j hj
    exact (key j).mpr
      (le_trans (pow_le_pow_right₀ (by norm_num) (by omega)) hk)
  have d1 : size / 1024 = size / 1024 ^ 1 := by norm_num
  have d2 : size / 1024 / 1024 = size / 1024 ^ 2 := by
    rw [div_div]; norm_num
  have d3 : size / 1024 / 1024 / 1024 = size / 1024 ^ 3 := by
    rw [div_div, div_div]; norm_num
  have d4 : size / 1024 / 1024 / 1024 / 1024 = size / 1024 ^ 4 := by
    rw [div_div, div_div, div_div]; norm_num
  have hp1 : (1024 : ℚ) ^ 1 = 1024 := by norm_num
  rcases lt_or_le size 1024 with h1 | h1
  · refine ⟨0, by norm_num, fun j hj => absurd hj (Nat.not_lt_zero j),
      (key2 0).mpr (by rwa [hp1]), ?_⟩
    simp only [Thumbr.format_file_size, Thumbr.sizeUnits]
    rw [Thumbr.formatFileSizeAux_step_lt _ _ _ h1]
    norm_num
  · have hk1 : (1024 : ℚ) ^ 1 ≤ size := by rwa [hp1]
    have c0 : ¬ size < 1024 := not_lt.mpr h1
    rcases lt_or_le size (1024 ^ 2) with h2 | h2
    · refine ⟨1, by norm_num, mono 1 hk1, (key2 1).mpr h2, ?_⟩
      have cl : size / 1024 < 1024 := by rw [d1]; exact (key2 1).mpr h2
      simp only [Thumbr.format_file_size, Thumbr.sizeUnits]
      rw [Thumbr.formatFileSizeAux_step_ge _ _ _ c0,
        Thumbr.formatFileSizeAux_step_lt _ _ _ cl, d1]
      rfl
    · have c1 : ¬ size / 1024 < 1024 := by
        rw [d1]; exact not_lt.mpr ((key 1).mpr h2)
      rcases lt_or_le size (1024 ^ 3) with h3 | h3
      · refine ⟨2, by norm_num, mono 2 h2, (key2 2).mpr h3, ?_⟩
        have cl : size / 1024 / 1024 < 1024 := by
          rw [d2]; exact (key2 2).mpr h3
        simp only [Thumbr.format_file_size, Thumbr.sizeUnits]
        rw [Thumbr.formatFileSizeAux_step_ge _ _ _ c0,
          Thumbr.formatFileSizeAux_step_ge _ _ _ c1,
          Thumbr.formatFileSizeAux_step_lt _ _ _ cl, d2]
        rfl
      · have c2 : ¬ size / 1024 / 1024 < 1024 := by
          rw [d2]; exact not_lt.mpr ((key 2).mpr h3)
        rcases lt_or_le size (1024 ^ 4) with h4 | h4
        · refine ⟨3, by norm_num, mono 3 h3, (key2 3).mpr h4, ?_⟩
          have cl : size / 1024 / 1024 / 1024 < 1024 := by
            rw [d3]; exact (key2 3).mpr h4
          simp only [Thumbr.format_file_size, Thumbr.sizeUnits]
          rw [Thumbr.formatFileSizeAux_step_ge _ _ _ c0,
            Thumbr.formatFileSizeAux_step_ge _ _ _ c1,
            Thumbr.formatFileSizeAux_step_ge _ _ _ c2,
            Thumbr.formatFileSizeAux_step_lt _ _ _ cl, d3]
          rfl
        · have c3 : ¬ size / 1024 / 1024 / 1024 < 1024 := by
            rw [d3]; exact not_lt.mpr ((key 3).mpr h4)
          refine ⟨4, by norm_num, mono 4 h4, (key2 4).mpr hTop, ?_⟩
          have cl : size / 1024 / 1024 / 1024 / 1024 < 1024 := by
            rw [d4]; exact (key2 4).mpr hTop
          simp only [Thumbr.format_file_size, Thumbr.sizeUnits]
          rw [Thumbr.formatFileSizeAux_step_ge _ _ _ c0,
            Thumbr.formatFileSizeAux_step_ge _ _ _ c1,
            Thumbr.formatFileSizeAux_step_ge _ _ _ c2,
            Thumbr.formatFileSizeAux_step_ge _ _ _ c3,
            Thumbr.formatFileSizeAux_step_lt _ _ _ cl, d4]
          rfl

/-- Witness for the amended C6 at 1536 bytes = 1.5 KB. -/
theorem C6_amended_binary_prefixes_witness :
    0 ≤ (1536 : ℚ) ∧ (1536 : ℚ) < 1024 ^ 5 ∧
    Thumbr.fileSizeClaimAt (1536 : ℚ) :=
  ⟨by norm_num, by norm_num,
    C6_amended_binary_prefixes 1536 (by norm_num) (by norm_num)⟩

/-- **C8.**  On every fatal path (`SourceOpenError`, `EmptyFrameSetError`
— and the division-by-zero crash) `generate_thumbnail` raises before the
encode step and no save happens; the save is in the trace exactly when
the run succeeds, and on success it is the last event, reached only
after layout, info-panel rendering, the tile annotation sweep and
watermark composition. -/
theorem C8_save_is_last_and_only_on_success {F : Type} (rows cols maxW : ℤ)
    (v : Thumbr.Video F) :
    (Thumbr.Ev.save ∈ (Thumbr.generateThumbnail rows cols maxW v).1
      ↔ (Thumbr.generateThumbnail rows cols maxW v).2.isOk = true) ∧
    (∀ e, (Thumbr.generateThumbnail rows cols maxW v).2 = Except.error e →
      Thumbr.Ev.save ∉ (Thumbr.generateThumbnail rows cols maxW v).1) ∧
    ((Thumbr.generateThumbnail rows cols maxW v).2.isOk = true →
      ∃ pre M, (Thumbr.generateThumbnail rows cols maxW v).1
          = pre ++ [Thumbr.Ev.layout, Thumbr.Ev.renderInfo]
              ++ (List.range M).map Thumbr.Ev.annotate
              ++ [Thumbr.Ev.watermark, Thumbr.Ev.save] ∧
        (Thumbr.generateThumbnail rows cols maxW v).1.getLast?
          = some Thumbr.Ev.save) := by
  cases hv : v.opens with
  | false =>
      have hg : Thumbr.generateThumbnail rows cols maxW v
          = ([Thumbr.Ev.openCap], Except.error Thumbr.Err.sourceOpen) := by
        rw [Thumbr.generateThumbnail, Thumbr.getVideoInfo, if_neg (by simp [hv])]
      rw [hg]
      simp [Except.isOk, Except.toBool]
  | true =>
      have h2 : ¬ v.opens = false := by simp [hv]
      by_cases hz : rows * cols + 1 = 0
      · have hg : Thumbr.generateThumbnail rows cols maxW v
            = ([Thumbr.Ev.openCap, Thumbr.Ev.release] ++ [Thumbr.Ev.openCap],
                Except.error Thumbr.Err.zeroDivision) := by
          rw [Thumbr.generateThumbnail, Thumbr.getVideoInfo, if_pos hv,
            Thumbr.captureFrames, if_neg h2, if_pos hz]
        rw [hg]
        simp [Except.isOk, Except.toBool]
      · by_cases he :
          ((Thumbr.probedPositions rows cols v.frameCount).filterMap v.read).isEmpty
        · have hg : Thumbr.generateThumbnail rows cols maxW v
              = ([Thumbr.Ev.openCap, Thumbr.Ev.release]
                  ++ ([Thumbr.Ev.openCap]
                    ++ (Thumbr.probedPositions rows cols v.frameCount).map
                        Thumbr.Ev.probe ++ [Thumbr.Ev.release]),
                  Except.error Thumbr.Err.emptyFrameSet) := by
            rw [Thumbr.generateThumbnail, Thumbr.getVideoInfo, if_pos hv,
              Thumbr.captureFrames, if_neg h2, if_neg hz]
            simp only [he, if_pos]
          rw [hg]
          refine ⟨by simp [Except.isOk, Except.toBool], fun e _ => by simp,
            by simp [Except.isOk, Except.toBool]⟩
        · rw [Thumbr.generateThumbnail, Thumbr.getVideoInfo, if_pos hv,
            Thumbr.captureFrames, if_neg h2, if_neg hz]
          simp only [he, if_neg, Bool.false_eq_true, not_false_eq_true]
          refine ⟨by simp [Except.isOk, Except.toBool], fun e hcon => by simp at hcon,
            fun _ => ?_⟩
          refine ⟨[Thumbr.Ev.openCap, Thumbr.Ev.release]
              ++ ([Thumbr.Ev.openCap]
                ++ (Thumbr.probedPositions rows cols v.frameCount).map
                    Thumbr.Ev.probe ++ [Thumbr.Ev.release]),
            ((Thumbr.probedPositions rows cols v.frameCount).filterMap
              v.read).length, by simp, ?_⟩
          rw [show ([Thumbr.Ev.openCap, Thumbr.Ev.release]
              ++ ([Thumbr.Ev.openCap]
                ++ (Thumbr.probedPositions rows cols v.frameCount).map
                    Thumbr.Ev.probe ++ [Thumbr.Ev.release])
              ++ [Thumbr.Ev.layout, Thumbr.Ev.renderInfo]
              ++ (List.range ((Thumbr.probedPositions rows cols
                    v.frameCount).filterMap v.read).length).map
                  Thumbr.Ev.annotate
              ++ [Thumbr.Ev.watermark, Thumbr.Ev.save] : List Thumbr.Ev)
            = ([Thumbr.Ev.openCap, Thumbr.Ev.release]
              ++ ([Thumbr.Ev.openCap]
                ++ (Thumbr.probedPositions rows cols v.frameCount).map
                    Thumbr.Ev.probe ++ [Thumbr.Ev.release])
              ++ [Thumbr.Ev.layout, Thumbr.Ev.renderInfo]
              ++ (List.range ((Thumbr.probedPositions rows cols
                    v.frameCount).filterMap v.read).length).map
                  Thumbr.Ev.annotate
              ++ [Thumbr.Ev.watermark]) ++ [Thumbr.Ev.save] from by
            simp [List.append_assoc]]
          rw [List.getLast?_concat]

/-- Witness for C8 on the fatal open-failure path: nothing is saved. -/
theorem C8_save_is_last_and_only_on_success_witness :
    Thumbr.Ev.save ∉ (Thumbr.generateThumbnail 3 3 1920
      (Thumbr.Video.mk false 0 0 0 0 0 (fun _ => none)
        : Thumbr.Video Unit)).1 :=
  (C8_save_is_last_and_only_on_success 3 3 1920
      (Thumbr.Video.mk false 0 0 0 0 0 (fun _ => none))).2.1
    Thumbr.Err.sourceOpen rfl

/-- **C10, counterexample.**  The claim that *every* grid whose parsed
components violate `rows ≥ 1` or `cols ≥ 1` leads to a zero-iteration
sweep and `EmptyFrameSetError` fails for the grid `-1x1`: there
`rows*cols + 1 = 0`, so `total_frames // (self.total_frames + 1)`
raises `ZeroDivisionError` before the sweep, and the run fails with
that error instead (still with no output written). -/
theorem C10_counterexample :
    (-1 : ℤ) < 1 ∧
    (Thumbr.generateThumbnail (-1) 1 1920
        (Thumbr.Video.mk true 1920 1080 30 300 0 (fun p => some p)
          : Thumbr.Video ℤ)).2
      = Except.error Thumbr.Err.zeroDivision ∧
    (Thumbr.generateThumbnail (-1) 1 1920
        (Thumbr.Video.mk true 1920 1080 30 300 0 (fun p => some p)
          : Thumbr.Video ℤ)).2
      ≠ Except.error Thumbr.Err.emptyFrameSet ∧
    Thumbr.Ev.save ∉ (Thumbr.generateThumbnail (-1) 1 1920
        (Thumbr.Video.mk true 1920 1080 30 300 0 (fun p => some p)
          : Thumbr.Video ℤ)).1 := by
  have hval : (Thumbr.generateThumbnail (-1) 1 1920
      (Thumbr.Video.mk true 1920 1080 30 300 0 (fun p => some p)
        : Thumbr.Video ℤ)).2 = Except.error Thumbr.Err.zeroDivision := rfl
  have htr : (Thumbr.generateThumbnail (-1) 1 1920
      (Thumbr.Video.mk true 1920 1080 30 300 0 (fun p => some p)
        : Thumbr.Video ℤ)).1
      = [Thumbr.Ev.openCap, Thumbr.Ev.release] ++ [Thumbr.Ev.openCap] := rfl
  refine ⟨by decide, hval, ?_, ?_⟩
  · rw [hval]
    simp
  · rw [htr]
    decide

/-- **C10, amended.**  A grid specification whose components parse as
integers with `rows*cols ≤ 0` and `rows*cols ≠ -1` (which includes the
examples `0x3` and `-1x3`) is not rejected as an `InvalidConfigError`:
the pipeline opens and probes the video, the capture sweep runs zero
iterations, and the run fails with `EmptyFrameSetError` ("No frames
could be captured from the video"); no save occurs.  (When
`rows*cols = -1` the interval computation divides by zero instead —
see the counterexample — and when both components are negative
`rows*cols ≥ 1` and the sweep actually runs.) -/
theorem C10_amended_invalid_grid_gives_emptyFrameSet {F : Type}
    (rows cols maxW : ℤ) (v : Thumbr.Video F)
    (hN : rows * cols ≤ 0) (hNe : rows * cols ≠ -1)
    (hopen : v.opens = true) :
    Thumbr.probedPositions rows cols v.frameCount = [] ∧
    (Thumbr.generateThumbnail rows cols maxW v).2
      = Except.error Thumbr.Err.emptyFrameSet ∧
    Thumbr.Ev.save ∉ (Thumbr.generateThumbnail rows cols maxW v).1 := by
  have h2 : ¬ v.opens = false := by simp [hopen]
  have hz : ¬ rows * cols + 1 = 0 := by omega
  have hp : Thumbr.probedPositions rows cols v.frameCount = [] := by
    rw [Thumbr.probedPositions]
    rw [show (rows * cols).toNat = 0 from by omega]
    rfl
  have hcap : Thumbr.captureFrames rows cols v
      = ([Thumbr.Ev.openCap] ++ [] ++ [Thumbr.Ev.release],
          Except.ok ([] : List F)) := by
    rw [Thumbr.captureFrames, if_neg h2, if_neg hz]
    rw [hp]
    rfl
  have hg : Thumbr.generateThumbnail rows cols maxW v
      = ([Thumbr.Ev.openCap, Thumbr.Ev.release]
          ++ ([Thumbr.Ev.openCap] ++ [] ++ [Thumbr.Ev.release]),
          Except.error Thumbr.Err.emptyFrameSet) := by
    rw [Thumbr.generateThumbnail, Thumbr.getVideoInfo, if_pos hopen, hcap]
    rfl
  refine ⟨hp, ?_, ?_⟩
  · rw [hg]
  · rw [hg]
    decide

/-- Witness for the amended C10: grid `0x3` over an opening 300-frame
source fails with the empty-frame-set error and saves nothing. -/
theorem C10_amended_invalid_grid_gives_emptyFrameSet_witness :
    Thumbr.probedPositions 0 3 300 = [] ∧
    (Thumbr.generateThumbnail 0 3 1920
        (Thumbr.Video.mk true 1920 1080 30 300 0 (fun p => some p)
          : Thumbr.Video ℤ)).2
      = Except.error Thumbr.Err.emptyFrameSet ∧
    Thumbr.Ev.save ∉ (Thumbr.generateThumbnail 0 3 1920
        (Thumbr.Video.mk true 1920 1080 30 300 0 (fun p => some p)
          : Thumbr.Video ℤ)).1 :=
  C10_amended_invalid_grid_gives_emptyFrameSet 0 3 1920
    (Thumbr.Video.mk true 1920 1080 30 300 0 (fun p => some p))
    (by decide) (by decide) rfl
